import Mathlib

/-!
Shallow embedding of the nau-ai extension orchestration and aggregation
pipeline (src/nau.py and the extension entry points under src/extensions/),
together with theorems settling the specification claims about it.

Python values are modelled by the inductive `Value`; Python dicts by
association lists in insertion order (`PyDict`), with `dictGet`,
`dictSet` and `dictMerge` mirroring `d.get`, `d[k] = v` and `{**a, **b}`.
External effects (the filesystem, dynamic module execution, the three AI
provider APIs, `json.dumps`) are abstracted as oracle parameters, so that
every claim is quantified over the environment's behaviour.
-/

namespace Nau

/-- Python runtime value, as far as the pipeline inspects it: strings,
integers, booleans, `None`, lists and string-keyed dicts. -/
inductive Value where
  | null : Value
  | bool : Bool → Value
  | num : Int → Value
  | str : String → Value
  | list : List Value → Value
  | dict : List (String × Value) → Value

/-- Python truthiness (`bool(v)`): `None`, `False`, `0`, `""` and empty
containers are falsy, everything else is truthy. -/
def Value.truthy : Value → Bool
  | .null => false
  | .bool b => b
  | .num n => n != 0
  | .str s => s != ""
  | .list l => !l.isEmpty
  | .dict d => !d.isEmpty

/-- A Python dict with string keys, kept in insertion order. -/
abbrev PyDict := List (String × Value)

/-- Mirrors `d.get(k, dflt)`: the value stored at the first entry for `k`,
the default when absent. -/
def dictGet (d : PyDict) (k : String) (dflt : Value) : Value :=
  match d.find? (fun p => p.fst == k) with
  | some p => p.snd
  | none => dflt

/-- Mirrors `d[k] = v` on a Python dict: an existing entry for `k` is
replaced in place, a fresh key is appended at the end. -/
def listSet {α : Type} (d : List (String × α)) (k : String) (v : α) :
    List (String × α) :=
  if d.any (fun p => p.fst == k) then
    d.map (fun p => if p.fst == k then (k, v) else p)
  else
    d ++ [(k, v)]

/-- Mirrors `d[k] = v` for `Value` dicts. -/
def dictSet (d : PyDict) (k : String) (v : Value) : PyDict :=
  listSet d k v

/-- Mirrors the Python dict merge `\x7b**a, **b\x7d`: start from `a` and
assign every entry of `b` in order. -/
def dictMerge (a b : PyDict) : PyDict :=
  b.foldl (fun acc p => dictSet acc p.fst p.snd) a

/-- The part of a loaded extension module the pipeline interacts with
after loading: its optional `collect_data` attribute.  `none` models a
module without the attribute; `some f` models the attribute, whose call
either raises (`Except.error` with the exception text) or returns a
value. -/
structure Module where
  collect : Option (Except String Value)

/-- Embedding of the `Extension` dataclass of src/nau.py: name, enabled
flag and config block are stored as raw Python values, `module` is the
handle set by the loader (`None` until `_load_extension_module`
succeeds). -/
structure Extension where
  name : Value
  enabled : Value
  config : Value
  module : Option Module := none

/-- Embedding of `Extension.from_dict` (src/nau.py lines 57-63): fields
are read with `data.get`, `enabled` defaulting to `True`, `config` to the
empty dict, and `module` left unset. -/
def Extension.from_dict (data : PyDict) : Extension :=
  { name := dictGet data "name" (Value.str "")
    enabled := dictGet data "enabled" (Value.bool true)
    config := dictGet data "config" (Value.dict [])
    module := none }

/-- Where the loader found an implementation file: the built-in
`extensions/<name>.py` next to the program, or `~/.devassist/extensions/
<name>.py`. -/
inductive LoadPath where
  | builtin (name : String)
  | user (name : String)

/-- The connector name a load path refers to. -/
def LoadPath.pathName : LoadPath → String
  | .builtin n => n
  | .user n => n

/-- Which implementation files exist, abstracting the two
`Path.exists()` probes of `load_extensions`. -/
structure FS where
  builtinExists : String → Bool
  userExists : String → Bool

/-- Outcome of executing the module file at a path and running its
optional `init` hook on the given config block: the resulting module, or
the text of the exception raised along the way. -/
abbrev LoadOracle := LoadPath → Value → Except String Module

/-- Diagnostic events the loader emits (the `logger.error` /
`logger.warning` calls of src/nau.py lines 207 and 225). -/
inductive LogEvent where
  | loadError (name : Value) (cause : String)
  | warnNotFound (name : String)

/-- Embedding of `DevAssist._load_extension_module` (src/nau.py lines
212-225): the whole body sits in a `try`, so a failure anywhere (module
execution or the `init` hook) is caught, leaves `module` unset and is
logged with the extension's name; on success the module handle is
stored. -/
def _load_extension_module (o : LoadOracle) (ext : Extension) (p : LoadPath) :
    Extension × List LogEvent :=
  match o p ext.config with
  | .ok m => ({ ext with module := some m }, [])
  | .error e => (ext, [LogEvent.loadError ext.name e])

/-- Embedding of `DevAssist.load_extensions` (src/nau.py lines 187-210):
iterate the `extensions` config dict in order; build the spec via
`Extension.from_dict(\x7b"name": name, **config\x7d)`; skip disabled
entries; probe the built-in path first, then the user path; load from
the first existing one and record the entry under the dict key; warn and
skip when neither file exists. -/
def load_extensions (fs : FS) (o : LoadOracle) :
    List (String × PyDict) → List (String × Extension) × List LogEvent
  | [] => ([], [])
  | (name, cfg) :: rest =>
    let ext := Extension.from_dict (dictMerge [("name", Value.str name)] cfg)
    if !ext.enabled.truthy then
      load_extensions fs o rest
    else if fs.builtinExists name then
      let r := _load_extension_module o ext (LoadPath.builtin name)
      let rr := load_extensions fs o rest
      ((name, r.fst) :: rr.fst, r.snd ++ rr.snd)
    else if fs.userExists name then
      let r := _load_extension_module o ext (LoadPath.user name)
      let rr := load_extensions fs o rest
      ((name, r.fst) :: rr.fst, r.snd ++ rr.snd)
    else
      let rr := load_extensions fs o rest
      (rr.fst, LogEvent.warnNotFound name :: rr.snd)

/-- Embedding of `DevAssist.collect_data` (src/nau.py lines 321-337):
for each recorded extension, skip it when its enabled value is falsy or
no module was stored; otherwise call `collect_data` when the module has
one, swallow any exception, and record the returned value under the
extension's key only when that value is truthy. -/
def collect_data : List (String × Extension) → List (String × Value)
  | [] => []
  | (name, ext) :: rest =>
    if !ext.enabled.truthy then
      collect_data rest
    else
      match ext.module with
      | none => collect_data rest
      | some m =>
        match m.collect with
        | none => collect_data rest
        | some (Except.error _) => collect_data rest
        | some (Except.ok v) =>
          if v.truthy then (name, v) :: collect_data rest
          else collect_data rest

/-- Embedding of the `AIConfig` dataclass (src/nau.py lines 30-47). -/
structure AIConfig where
  provider : String
  model : String
  api_key : Option String := none
  api_url : Option String := none
  local_model_path : Option String := none

/-- The environment the backend queries run against: the
`Path(...).exists()` probe of the local branch, the three provider API
calls (each either raising — `Except.error` with the exception text — or
returning completion text), and `json.dumps(·, indent=2)` used by prompt
formatting.  `llama` takes model path and prompt; the API oracles take
api key, model name and prompt. -/
structure Oracles where
  pathExists : String → Bool
  llama : String → String → Except String String
  claudeApi : String → String → String → Except String String
  openaiApi : String → String → String → Except String String
  jsonDumps : Value → String

/-- Embedding of `DevAssist._format_prompt` (src/nau.py lines 244-255):
a falsy context (`None` or the empty dict) returns the prompt unchanged;
otherwise a `Context:` block with one `=== source ===` section per
context entry is prepended and the prompt is wrapped in the
`Task:`/`Response:` frame. -/
def _format_prompt (dumps : Value → String) (prompt : String)
    (context : Option PyDict) : String :=
  match context with
  | none => prompt
  | some ctx =>
    if ctx.isEmpty then prompt
    else
      let context_str := "Context:\n" ++
        String.join (ctx.map fun p =>
          "=== " ++ p.fst ++ " ===\n" ++ dumps p.snd ++ "\n\n")
      context_str ++ "\nTask: " ++ prompt ++ "\n\nResponse:"

/-- Embedding of `DevAssist._query_local_llama` (src/nau.py lines
257-272): a missing or nonexistent model path yields the fixed config
error string; otherwise the model is invoked, with a raise caught and
rendered as an error string. -/
def _query_local_llama (cfg : AIConfig) (o : Oracles) (prompt : String) :
    String :=
  match cfg.local_model_path with
  | none => "Error: Local model path not configured or model file not found"
  | some p =>
    if p == "" || !o.pathExists p then
      "Error: Local model path not configured or model file not found"
    else
      match o.llama p prompt with
      | .ok text => text
      | .error e => "Error querying local model: " ++ e

/-- Embedding of `DevAssist._query_claude` (src/nau.py lines 274-295):
a falsy api key (unset or empty) yields the fixed auth error string
before any API call; otherwise the request runs with the configured
model (falling back to the default when falsy), and a raise is caught
and rendered as an error string. -/
def _query_claude (cfg : AIConfig) (o : Oracles) (prompt : String) :
    String :=
  match cfg.api_key with
  | none => "Error: Claude API key not configured"
  | some k =>
    if k == "" then "Error: Claude API key not configured"
    else
      let model := if cfg.model == "" then "claude-3-7-sonnet-20250219"
        else cfg.model
      match o.claudeApi k model prompt with
      | .ok text => text
      | .error e => "Error querying Claude API: " ++ e

/-- Embedding of `DevAssist._query_openai` (src/nau.py lines 297-319),
symmetric to the Claude branch with default model `gpt-4`. -/
def _query_openai (cfg : AIConfig) (o : Oracles) (prompt : String) :
    String :=
  match cfg.api_key with
  | none => "Error: OpenAI API key not configured"
  | some k =>
    if k == "" then "Error: OpenAI API key not configured"
    else
      let model := if cfg.model == "" then "gpt-4" else cfg.model
      match o.openaiApi k model prompt with
      | .ok text => text
      | .error e => "Error querying OpenAI API: " ++ e

/-- The backend `query_ai` dispatches to, read off the `if/elif` chain
on `self.ai_config.provider` (src/nau.py lines 234-242). -/
inductive BackendChoice where
  | localModel : BackendChoice
  | claude : BackendChoice
  | openai : BackendChoice
  | unknown : BackendChoice
deriving DecidableEq

/-- The provider-string dispatch of `query_ai`: `"local"`, `"claude"`,
`"openai"` in that order, anything else falling through to the error
branch. -/
def select_backend (provider : String) : BackendChoice :=
  if provider == "local" then .localModel
  else if provider == "claude" then .claude
  else if provider == "openai" then .openai
  else .unknown

/-- Runs the chosen backend branch of `query_ai` on an already formatted
prompt. -/
def run_backend (c : BackendChoice) (cfg : AIConfig) (o : Oracles)
    (prompt : String) : String :=
  match c with
  | .localModel => _query_local_llama cfg o prompt
  | .claude => _query_claude cfg o prompt
  | .openai => _query_openai cfg o prompt
  | .unknown => "Error: Unable to query AI model"

/-- Embedding of `DevAssist.query_ai` (src/nau.py lines 227-242): format
the prompt with the context, then dispatch on the provider string. -/
def query_ai (cfg : AIConfig) (o : Oracles) (prompt : String)
    (context : Option PyDict) : String :=
  let formatted_prompt := _format_prompt o.jsonDumps prompt context
  if cfg.provider == "local" then _query_local_llama cfg o formatted_prompt
  else if cfg.provider == "claude" then _query_claude cfg o formatted_prompt
  else if cfg.provider == "openai" then _query_openai cfg o formatted_prompt
  else "Error: Unable to query AI model"

/-- The fixed summarization prompt of `DevAssist.process_data`
(src/nau.py lines 344-350). -/
def summary_prompt : String :=
  "You are an AI assistant for developers. Analyze the following data from different developer tools and provide a concise summary focusing on:\n1. Important tasks and their priorities\n2. Pending code reviews that need attention\n3. Messages that require responses\n4. Any blocking issues that should be addressed immediately\n\nPlease format the output in a clear, readable way with sections for each category."

/-- Embedding of `DevAssist.process_data` (src/nau.py lines 339-353): an
empty (falsy) data dict short-circuits to the fixed no-data message;
otherwise the AI is queried with the data as context. -/
def process_data (cfg : AIConfig) (o : Oracles) (data : PyDict) : String :=
  if data.isEmpty then "No data collected from extensions."
  else query_ai cfg o summary_prompt (some data)

/-- Embedding of `DevAssist.run` (src/nau.py lines 355-370), with the
summary it prints returned as a string: load extensions, collect their
data, process it. -/
def DevAssist.run (fs : FS) (lo : LoadOracle) (o : Oracles) (cfg : AIConfig)
    (extensions_config : List (String × PyDict)) : String :=
  let exts := (load_extensions fs lo extensions_config).fst
  let data := collect_data exts
  process_data cfg o data

/-- Embedding of the github extension's `collect_data` entry guard
(src/extensions/github/run.py lines 45-48): when the module-level
session was never established (`init` returned early for lack of a
token), the call returns a dict holding an error marker instead of
data.  The network-dependent rest of the body is abstracted as the
`fetched` parameter. -/
def github_collect_data (session : Option Unit) (fetched : Value) : Value :=
  if session.isNone then
    Value.dict [("error", Value.str "GitHub extension not properly initialized")]
  else fetched

/-! ### Characterization lemmas -/

/-- What one recorded extension contributes to the aggregation round:
`some v` exactly when the extension passes every guard of the
`collect_data` loop body and its collect call returns the truthy `v`. -/
def entry_result (ext : Extension) : Option Value :=
  if !ext.enabled.truthy then none
  else
    match ext.module with
    | none => none
    | some m =>
      match m.collect with
      | none => none
      | some (Except.error _) => none
      | some (Except.ok v) => if v.truthy then some v else none

/-- The extension spec `load_extensions` constructs for the config entry
`(name, cfg)`: `Extension.from_dict(\x7b"name": name, **cfg\x7d)`. -/
def ext_of (name : String) (cfg : PyDict) : Extension :=
  Extension.from_dict (dictMerge [("name", Value.str name)] cfg)

/-- What one config entry contributes to the set of recorded extensions:
`none` when disabled or no implementation file exists, otherwise the
extension after the loader ran on the first existing path. -/
def load_entry (fs : FS) (o : LoadOracle) (name : String) (cfg : PyDict) :
    Option Extension :=
  let ext := ext_of name cfg
  if !ext.enabled.truthy then none
  else if fs.builtinExists name then
    some (_load_extension_module o ext (LoadPath.builtin name)).fst
  else if fs.userExists name then
    some (_load_extension_module o ext (LoadPath.user name)).fst
  else none

/-- The `extensions` block of the persisted config: a Python dict from
connector name to its spec dict. -/
abbrev Registry := List (String × PyDict)

/-- Embedding of the registration step of `install_extension`
(src/nau.py lines 504-513): the fixed spec dict
`\x7b"enabled": True, "config": \x7b\x7d\x7d` is assigned under the name
only when the name is not already a key of the `extensions` dict
(`if extension_name not in app.config.get("extensions", \x7b\x7d)`);
when the name is already registered nothing is written. -/
def register (r : Registry) (name : String) : Registry :=
  if r.any (fun p => p.fst == name) then r
  else listSet r name [("enabled", Value.bool true), ("config", Value.dict [])]

/-- Reading a registered spec back out of the `extensions` dict, as
`load_extensions` does when it iterates `self.config.get("extensions")`. -/
def retrieve (r : Registry) (name : String) : Option PyDict :=
  match r.find? (fun p => p.fst == name) with
  | some p => some p.snd
  | none => none

/-- Two oracle environments agree on the backend a run dispatches to. -/
def agree_on : BackendChoice → Oracles → Oracles → Prop
  | .localModel, o, o2 => o.pathExists = o2.pathExists ∧ o.llama = o2.llama
  | .claude, o, o2 => o.claudeApi = o2.claudeApi
  | .openai, o, o2 => o.openaiApi = o2.openaiApi
  | .unknown, _, _ => True

/-! ### Concrete fixtures used by counterexamples and witnesses -/

/-- A module whose collect call succeeds with a truthy payload. -/
def healthyModule : Module :=
  { collect := some (Except.ok (Value.str "ok")) }

/-- A module whose collect call raises. -/
def raisingModule : Module :=
  { collect := some (Except.error "boom") }

/-- A slack module whose collect call succeeds but returns the empty
dict (no mentions, no messages): a successful yet falsy result. -/
def emptySlackModule : Module :=
  { collect := some (Except.ok (Value.dict [])) }

/-- A github module loaded without a configured token: its collect call
returns the error-marker dict of src/extensions/github/run.py. -/
def uninitGithubModule : Module :=
  { collect := some (Except.ok (github_collect_data none (Value.dict []))) }

def emptySlackExt : Extension :=
  { name := Value.str "slack", enabled := Value.bool true,
    config := Value.dict [], module := some emptySlackModule }

def uninitGithubExt : Extension :=
  { name := Value.str "github", enabled := Value.bool true,
    config := Value.dict [], module := some uninitGithubModule }

def raisingExt : Extension :=
  { name := Value.str "jira", enabled := Value.bool true,
    config := Value.dict [], module := some raisingModule }

def healthyExt : Extension :=
  { name := Value.str "slack", enabled := Value.bool true,
    config := Value.dict [], module := some healthyModule }

/-- Configuration in which an uninitialized github connector and a
slack connector with an empty (falsy) successful result are both
enabled and loaded. -/
def cexExts : List (String × Extension) :=
  [("github", uninitGithubExt), ("slack", emptySlackExt)]

/-- Configuration in which one connector's collect raises and another's
succeeds. -/
def mixedExts : List (String × Extension) :=
  [("jira", raisingExt), ("slack", healthyExt)]

/-- A filesystem on which every implementation file exists, built-in and
user-supplied alike. -/
def fsBoth : FS :=
  { builtinExists := fun _ => true, userExists := fun _ => true }

/-- A load oracle on which every load succeeds with a healthy module. -/
def okLoadOracle : LoadOracle := fun _ _ => Except.ok healthyModule

/-- Backend oracles on which every call succeeds with "SUMMARY". -/
def oraclesStd : Oracles :=
  { pathExists := fun _ => true
    llama := fun _ _ => Except.ok "SUMMARY"
    claudeApi := fun _ _ _ => Except.ok "SUMMARY"
    openaiApi := fun _ _ _ => Except.ok "SUMMARY"
    jsonDumps := fun _ => "null" }

/-- A locally-backed AI configuration with an existing model path. -/
def aiLocalCfg : AIConfig :=
  { provider := "local", model := "llama3",
    local_model_path := some "/models/llama3" }

/-- A Claude-backed AI configuration with no API key. -/
def claudeNoKeyCfg : AIConfig :=
  { provider := "claude", model := "m", api_key := none }

/-- A Claude-backed AI configuration with an API key. -/
def claudeKeyCfg : AIConfig :=
  { provider := "claude", model := "m", api_key := some "k" }

/-- A filesystem on which only built-in implementation files exist. -/
def fsBuiltinOnly : FS :=
  { builtinExists := fun _ => true, userExists := fun _ => false }

/-- A load oracle that raises for the jira connector's file and succeeds
for every other path. -/
def failJiraOracle : LoadOracle := fun p _ =>
  if p.pathName == "jira" then Except.error "boom" else Except.ok healthyModule

/-- The same oracle with the jira failure repaired; it agrees with
`failJiraOracle` on every other connector's path. -/
def fixJiraOracle : LoadOracle := fun p v =>
  if p.pathName == "jira" then Except.ok healthyModule else failJiraOracle p v

/-- A built-in implementation distinguishable from the user-supplied
one. -/
def builtinModule : Module :=
  { collect := some (Except.ok (Value.str "builtin data")) }

def userModule : Module :=
  { collect := some (Except.ok (Value.str "user data")) }

/-- A load oracle returning a different module depending on which of the
two implementation files was loaded. -/
def splitOracle : LoadOracle := fun p _ =>
  match p with
  | .builtin _ => Except.ok builtinModule
  | .user _ => Except.ok userModule

/-- A completion API that fails with a transport error. -/
def downApi : String → String → String → Except String String :=
  fun _ _ _ => Except.error "network down"

def dumpsNull : Value → String := fun _ => "null"

/-- Oracles whose unselected backends answer "A". -/
def oraclesA : Oracles :=
  { pathExists := fun _ => true
    llama := fun _ _ => Except.ok "A"
    claudeApi := downApi
    openaiApi := fun _ _ _ => Except.ok "A"
    jsonDumps := dumpsNull }

/-- Oracles identical to `oraclesA` on the Claude backend but answering
"B" on every other backend. -/
def oraclesB : Oracles :=
  { pathExists := fun _ => false
    llama := fun _ _ => Except.ok "B"
    claudeApi := downApi
    openaiApi := fun _ _ _ => Except.ok "B"
    jsonDumps := dumpsNull }

/-- A load oracle on which every load succeeds with a module whose
collect call returns the empty (falsy) dict. -/
def emptyLoadOracle : LoadOracle := fun _ _ => Except.ok emptySlackModule

/-- A configuration with one disabled connector and one enabled
connector whose collect succeeds with a falsy value: both branches of
the no-data scenario at once. -/
def noDataCfgs : List (String × PyDict) :=
  [("github", [("enabled", Value.bool false)]), ("slack", [])]

/-- A registry on which github is already registered with a custom
spec. -/
def presetRegistry : Registry :=
  [("github", [("enabled", Value.bool false),
    ("config", Value.dict [("token", Value.str "t")])])]

theorem collect_data_cons (n : String) (ext : Extension)
    (tl : List (String × Extension)) :
    collect_data ((n, ext) :: tl) =
      match entry_result ext with
      | none => collect_data tl
      | some v => (n, v) :: collect_data tl := by
  by_cases he : ext.enabled.truthy
  · cases hm : ext.module with
    | none => simp [collect_data, entry_result, he, hm]
    | some m =>
      cases hc : m.collect with
      | none => simp [collect_data, entry_result, he, hm, hc]
      | some r =>
        cases r with
        | error e => simp [collect_data, entry_result, he, hm, hc]
        | ok v =>
          by_cases hv : v.truthy
          · simp [collect_data, entry_result, he, hm, hc, hv]
          · simp [collect_data, entry_result, he, hm, hc, hv]
  · simp [collect_data, entry_result, he]

theorem collect_data_eq_filterMap (exts : List (String × Extension)) :
    collect_data exts =
      exts.filterMap (fun p => (entry_result p.snd).map (fun v => (p.fst, v))) := by
  induction exts with
  | nil => rfl
  | cons hd tl ih =>
    obtain ⟨n, ext⟩ := hd
    rw [collect_data_cons, List.filterMap_cons]
    cases h : entry_result ext with
    | none => simpa [h] using ih
    | some v => simpa [h] using ih

theorem entry_result_eq_some_iff {ext : Extension} {v : Value} :
    entry_result ext = some v ↔
      ext.enabled.truthy = true ∧
        ∃ m, ext.module = some m ∧ m.collect = some (Except.ok v) ∧
          v.truthy = true := by
  by_cases he : ext.enabled.truthy
  · cases hm : ext.module with
    | none => simp [entry_result, he, hm]
    | some m =>
      cases hc : m.collect with
      | none => simp [entry_result, he, hm, hc]
      | some r =>
        cases r with
        | error e => simp [entry_result, he, hm, hc]
        | ok w =>
          by_cases hv : w.truthy
          · have hent : entry_result ext = some w := by
              simp [entry_result, he, hm, hc, hv]
            rw [hent]
            constructor
            · intro h1
              injection h1 with h2
              subst h2
              exact ⟨he, m, rfl, hc, hv⟩
            · rintro ⟨-, m', hm', hc', hv'⟩
              injection hm' with h2
              subst h2
              rw [hc] at hc'
              injection hc' with h3
              injection h3 with h4
              rw [h4]
          · have hent : entry_result ext = none := by
              simp [entry_result, he, hm, hc, hv]
            rw [hent]
            constructor
            · rintro ⟨⟩
            · rintro ⟨-, m', hm', hc', hv'⟩
              injection hm' with h2
              subst h2
              rw [hc] at hc'
              injection hc' with h3
              injection h3 with h4
              rw [h4] at hv
              exact absurd hv' hv
  · simp [entry_result, he]

theorem mem_collect_data_iff {exts : List (String × Extension)}
    {name : String} {v : Value} :
    (name, v) ∈ collect_data exts ↔
      ∃ ext, (name, ext) ∈ exts ∧ ext.enabled.truthy = true ∧
        ∃ m, ext.module = some m ∧ m.collect = some (Except.ok v) ∧
          v.truthy = true := by
  rw [collect_data_eq_filterMap, List.mem_filterMap]
  constructor
  · rintro ⟨⟨n, ext⟩, hmem, hres⟩
    simp only [Option.map_eq_some'] at hres
    obtain ⟨w, hw, heq⟩ := hres
    obtain ⟨rfl, rfl⟩ : n = name ∧ w = v := by
      constructor <;> cases heq <;> rfl
    exact ⟨ext, hmem, entry_result_eq_some_iff.mp hw⟩
  · rintro ⟨ext, hmem, hen, m, hm, hc, hv⟩
    refine ⟨(name, ext), hmem, ?_⟩
    have : entry_result ext = some v :=
      entry_result_eq_some_iff.mpr ⟨hen, m, hm, hc, hv⟩
    simp [this]

theorem key_mem_collect_iff {exts : List (String × Extension)}
    {name : String} :
    name ∈ (collect_data exts).map Prod.fst ↔
      ∃ ext, (name, ext) ∈ exts ∧ ext.enabled.truthy = true ∧
        ∃ m v, ext.module = some m ∧ m.collect = some (Except.ok v) ∧
          v.truthy = true := by
  rw [List.mem_map]
  constructor
  · rintro ⟨⟨n, v⟩, hmem, rfl⟩
    obtain ⟨ext, h1, h2, m, h3, h4, h5⟩ := mem_collect_data_iff.mp hmem
    exact ⟨ext, h1, h2, m, v, h3, h4, h5⟩
  · rintro ⟨ext, h1, h2, m, v, h3, h4, h5⟩
    exact ⟨(name, v), mem_collect_data_iff.mpr ⟨ext, h1, h2, m, h3, h4, h5⟩, rfl⟩

theorem load_extensions_fst_cons (fs : FS) (o : LoadOracle) (n : String)
    (cfg : PyDict) (tl : List (String × PyDict)) :
    (load_extensions fs o ((n, cfg) :: tl)).fst =
      match load_entry fs o n cfg with
      | none => (load_extensions fs o tl).fst
      | some e => (n, e) :: (load_extensions fs o tl).fst := by
  by_cases he :
      (Extension.from_dict (dictMerge [("name", Value.str n)] cfg)).enabled.truthy
  · by_cases hb : fs.builtinExists n
    · simp [load_extensions, load_entry, ext_of, he, hb]
    · by_cases hu : fs.userExists n
      · simp [load_extensions, load_entry, ext_of, he, hb, hu]
      · simp [load_extensions, load_entry, ext_of, he, hb, hu]
  · simp [load_extensions, load_entry, ext_of, he]

theorem load_extensions_fst_eq (fs : FS) (o : LoadOracle)
    (cfgs : List (String × PyDict)) :
    (load_extensions fs o cfgs).fst =
      cfgs.filterMap
        (fun p => (load_entry fs o p.fst p.snd).map (fun e => (p.fst, e))) := by
  induction cfgs with
  | nil => rfl
  | cons hd tl ih =>
    obtain ⟨n, cfg⟩ := hd
    rw [load_extensions_fst_cons, List.filterMap_cons]
    cases h : load_entry fs o n cfg with
    | none => simpa [h] using ih
    | some e => simpa [h] using ih

theorem mem_load_extensions_iff {fs : FS} {o : LoadOracle}
    {cfgs : List (String × PyDict)} {name : String} {ext : Extension} :
    (name, ext) ∈ (load_extensions fs o cfgs).fst ↔
      ∃ cfg, (name, cfg) ∈ cfgs ∧ load_entry fs o name cfg = some ext := by
  rw [load_extensions_fst_eq, List.mem_filterMap]
  constructor
  · rintro ⟨⟨n, cfg⟩, hmem, hres⟩
    simp only [Option.map_eq_some'] at hres
    obtain ⟨e, he, heq⟩ := hres
    obtain ⟨rfl, rfl⟩ : n = name ∧ e = ext := by
      constructor <;> cases heq <;> rfl
    exact ⟨cfg, hmem, he⟩
  · rintro ⟨cfg, hmem, hres⟩
    exact ⟨(name, cfg), hmem, by simp [hres]⟩

/-- In a list whose keys are nodup, a key determines its value. -/
theorem keyval_unique {α : Type} {l : List (String × α)}
    (h : (l.map Prod.fst).Nodup) {k : String} {a b : α}
    (ha : (k, a) ∈ l) (hb : (k, b) ∈ l) : a = b := by
  induction l with
  | nil => cases ha
  | cons hd tl ih =>
    obtain ⟨n, v⟩ := hd
    simp only [List.map_cons, List.nodup_cons] at h
    rcases List.mem_cons.mp ha with ha' | ha' <;>
      rcases List.mem_cons.mp hb with hb' | hb'
    · cases ha'; cases hb'; rfl
    · cases ha'
      exact absurd (List.mem_map.mpr ⟨(k, b), hb', rfl⟩) h.1
    · cases hb'
      exact absurd (List.mem_map.mpr ⟨(k, a), ha', rfl⟩) h.1
    · exact ih h.2 ha' hb'

theorem find?_listSet_replace {α : Type} (l : List (String × α)) (k : String)
    (v : α) :
    (l.map (fun p => if p.fst == k then (k, v) else p)).find?
        (fun p => p.fst == k) =
      if l.any (fun p => p.fst == k) then some (k, v) else none := by
  induction l with
  | nil => rfl
  | cons hd tl ih =>
    simp only [List.map_cons, List.any_cons]
    by_cases h : (hd.fst == k) = true
    · rw [if_pos h, List.find?_cons]
      simp [h]
    · have hb : (hd.fst == k) = false := Bool.eq_false_iff.mpr h
      rw [if_neg h, List.find?_cons]
      simp only [hb]
      rw [ih]
      rfl

theorem find?_append_new {α : Type} (l : List (String × α)) (k : String)
    (v : α) (h : l.any (fun p => p.fst == k) = false) :
    (l ++ [(k, v)]).find? (fun p => p.fst == k) = some (k, v) := by
  induction l with
  | nil => simp
  | cons hd tl ih =>
    simp only [List.any_cons, Bool.or_eq_false_iff] at h
    rw [List.cons_append, List.find?_cons_of_neg _ (by simp [h.1])]
    exact ih h.2

theorem retrieve_listSet (r : Registry) (name : String) (spec : PyDict) :
    retrieve (listSet r name spec) name = some spec := by
  by_cases h : r.any (fun p => p.fst == name)
  · unfold retrieve listSet
    rw [if_pos h, find?_listSet_replace, if_pos h]
  · have h2 : r.any (fun p => p.fst == name) = false := Bool.eq_false_iff.mpr h
    unfold retrieve listSet
    rw [if_neg h, find?_append_new r name _ h2]

theorem any_map_replace {α : Type} (l : List (String × α)) (k : String)
    (v : α) :
    (l.map (fun p => if p.fst == k then (k, v) else p)).any
        (fun p => p.fst == k) =
      l.any (fun p => p.fst == k) := by
  induction l with
  | nil => rfl
  | cons hd tl ih =>
    simp only [List.map_cons, List.any_cons]
    by_cases h : (hd.fst == k) = true
    · rw [if_pos h, h]
      simp
    · have hb : (hd.fst == k) = false := Bool.eq_false_iff.mpr h
      rw [if_neg h, hb, ih]

theorem any_listSet {α : Type} (l : List (String × α)) (k : String) (v : α) :
    (listSet l k v).any (fun p => p.fst == k) = true := by
  unfold listSet
  by_cases h : l.any (fun p => p.fst == k)
  · rw [if_pos h, any_map_replace, h]
  · rw [if_neg h]
    simp

theorem _query_claude_no_key (cfg : AIConfig) (o : Oracles) (prompt : String)
    (hkey : cfg.api_key = none ∨ cfg.api_key = some "") :
    _query_claude cfg o prompt = "Error: Claude API key not configured" := by
  rcases hkey with hk | hk <;> simp [_query_claude, hk]

theorem _query_openai_no_key (cfg : AIConfig) (o : Oracles) (prompt : String)
    (hkey : cfg.api_key = none ∨ cfg.api_key = some "") :
    _query_openai cfg o prompt = "Error: OpenAI API key not configured" := by
  rcases hkey with hk | hk <;> simp [_query_openai, hk]

/-- The provider dispatch of `query_ai` factors through `select_backend`
applied to the provider string alone. -/
theorem query_ai_eq_run_backend (cfg : AIConfig) (o : Oracles)
    (prompt : String) (context : Option PyDict) :
    query_ai cfg o prompt context =
      run_backend (select_backend cfg.provider) cfg o
        (_format_prompt o.jsonDumps prompt context) := by
  by_cases h1 : cfg.provider == "local"
  · simp [query_ai, select_backend, run_backend, h1]
  · by_cases h2 : cfg.provider == "claude"
    · simp [query_ai, select_backend, run_backend, h1, h2]
    · by_cases h3 : cfg.provider == "openai"
      · simp [query_ai, select_backend, run_backend, h1, h2, h3]
      · simp [query_ai, select_backend, run_backend, h1, h2, h3]

/-! ### Claim theorems -/

/-- C1 (amended): provided at least one connector's collect call returns
successfully, a connector name is a key of the CollectionResult if and
only if that connector was enabled, its module finished loading, and its
collect call returned a truthy (non-empty) value — a successful but
empty result is omitted, and a truthy error-marker value does appear. -/
theorem C1_collect_keys (exts : List (String × Extension)) (name : String)
    (hsome : ∃ p, p ∈ exts ∧ ∃ m v, p.snd.module = some m ∧
      m.collect = some (Except.ok v)) :
    name ∈ (collect_data exts).map Prod.fst ↔
      ∃ ext, (name, ext) ∈ exts ∧ ext.enabled.truthy = true ∧
        ∃ m v, ext.module = some m ∧ m.collect = some (Except.ok v) ∧
          v.truthy = true :=
  key_mem_collect_iff

/-- C1 witness: on the concrete two-connector configuration, the keys of
the CollectionResult are characterized as the theorem states. -/
theorem C1_collect_keys_witness :
    "github" ∈ (collect_data cexExts).map Prod.fst ↔
      ∃ ext, ("github", ext) ∈ cexExts ∧ ext.enabled.truthy = true ∧
        ∃ m v, ext.module = some m ∧ m.collect = some (Except.ok v) ∧
          v.truthy = true :=
  C1_collect_keys cexExts "github"
    ⟨("github", uninitGithubExt), List.mem_cons_self _ _,
      uninitGithubModule, github_collect_data none (Value.dict []), rfl, rfl⟩

/-- C1 counterexample to the claim as stated: slack is enabled, loaded,
and its collect call returns successfully (the empty dict), yet "slack"
is not a key of the CollectionResult; meanwhile the uninitialized github
connector's truthy error marker is the only key. -/
theorem C1_counterexample :
    (("slack", emptySlackExt) ∈ cexExts ∧
      emptySlackExt.enabled.truthy = true ∧
      emptySlackExt.module = some emptySlackModule ∧
      emptySlackModule.collect = some (Except.ok (Value.dict []))) ∧
    (collect_data cexExts).map Prod.fst = ["github"] ∧
    "slack" ∉ (collect_data cexExts).map Prod.fst := by
  refine ⟨⟨?_, rfl, rfl, rfl⟩, rfl, by decide⟩
  exact List.mem_cons_of_mem _ (List.mem_singleton.mpr rfl)

/-- C2 (amended): whenever no connector contributes a truthy value —
each configured connector is disabled, never found, fails to load,
raises while collecting, or collects a falsy (empty) value — the
CollectionResult is empty, and the pipeline then returns the fixed "No
data collected from extensions." message without invoking the
configured backend.  This covers both zero-enabled configurations and
total collection failure, where failure means raising or producing a
falsy value (a truthy error-marker return keeps the result non-empty,
so the backend is still invoked in that case). -/
theorem C2_no_data_short_circuit (fs : FS) (lo : LoadOracle) (o : Oracles)
    (cfg : AIConfig) (cfgs : List (String × PyDict))
    (hempty : ∀ p, p ∈ cfgs → ∀ ext,
      load_entry fs lo p.fst p.snd = some ext →
      ∀ m v, ext.module = some m → m.collect = some (Except.ok v) →
        v.truthy = false) :
    collect_data (load_extensions fs lo cfgs).fst = [] ∧
    DevAssist.run fs lo o cfg cfgs = "No data collected from extensions." := by
  have hcoll : collect_data (load_extensions fs lo cfgs).fst = [] := by
    rw [collect_data_eq_filterMap]
    apply List.filterMap_eq_nil_iff.mpr
    rintro ⟨n, ext⟩ hmem
    show (entry_result ext).map (fun v => (n, v)) = none
    obtain ⟨cfg2, hc2, hload⟩ := mem_load_extensions_iff.mp hmem
    cases hres : entry_result ext with
    | none => rfl
    | some v =>
      obtain ⟨hen, m, hm, hc, hv⟩ := entry_result_eq_some_iff.mp hres
      have hfalse := hempty (n, cfg2) hc2 ext hload m v hm hc
      rw [hv] at hfalse
      exact Bool.noConfusion hfalse
  refine ⟨hcoll, ?_⟩
  show process_data cfg o
    (collect_data (load_extensions fs lo cfgs).fst) = _
  rw [hcoll]
  rfl

/-- C2 witness: one disabled connector and one connector whose collect
succeeds with the empty dict — both no-data branches at once — yield
the fixed message. -/
theorem C2_no_data_short_circuit_witness :
    collect_data (load_extensions fsBoth emptyLoadOracle noDataCfgs).fst = [] ∧
    DevAssist.run fsBoth emptyLoadOracle oraclesStd aiLocalCfg noDataCfgs =
      "No data collected from extensions." :=
  C2_no_data_short_circuit fsBoth emptyLoadOracle oraclesStd aiLocalCfg
    noDataCfgs
    (by
      intro p hp ext hload m v hm hc
      rcases List.mem_cons.mp hp with h | h
      · subst h
        exact Option.noConfusion
          (show (none : Option Extension) = some ext from hload)
      · rcases List.mem_singleton.mp h with h2
        subst h2
        have hext : some { ext_of "slack" [] with
            module := some emptySlackModule } = some ext := hload
        injection hext with h3
        subst h3
        have hm2 : some emptySlackModule = some m := hm
        injection hm2 with h4
        subst h4
        have hc2 : some (Except.ok (Value.dict [])) = some (Except.ok v) := hc
        injection hc2 with h5
        injection h5 with h6
        rw [← h6]
        rfl)

/-- C2 counterexample to the claim as stated: with an empty
CollectionResult the pipeline's output is the fixed message, not the
summarization the configured backend would have produced on the empty
context — the backend is skipped, not invoked. -/
theorem C2_counterexample :
    process_data aiLocalCfg oraclesStd [] = "No data collected from extensions." ∧
    query_ai aiLocalCfg oraclesStd summary_prompt (some []) = "SUMMARY" ∧
    "No data collected from extensions." ≠ "SUMMARY" :=
  ⟨rfl, rfl, by decide⟩

/-- C3 (amended): a connector whose collect call raises is omitted and
never prevents any other connector's truthy result from appearing; the
aggregation always returns a result.  (A connector that returns an
error-marker value instead of raising is not omitted — see the
counterexample.) -/
theorem C3_raise_isolation (exts : List (String × Extension)) (c : String)
    (hc : ∀ ext, (c, ext) ∈ exts → ∀ m, ext.module = some m →
      ∃ e, m.collect = some (Except.error e)) :
    c ∉ (collect_data exts).map Prod.fst ∧
    ∀ n ext m v, (n, ext) ∈ exts → ext.enabled.truthy = true →
      ext.module = some m → m.collect = some (Except.ok v) →
      v.truthy = true → (n, v) ∈ collect_data exts := by
  constructor
  · intro hmem
    obtain ⟨ext, h1, h2, m, v, h3, h4, h5⟩ := key_mem_collect_iff.mp hmem
    obtain ⟨e, he⟩ := hc ext h1 m h3
    rw [h4] at he
    simp at he
  · intro n ext m v h1 h2 h3 h4 h5
    exact mem_collect_data_iff.mpr ⟨ext, h1, h2, m, h3, h4, h5⟩

/-- C3 witness: with jira raising and slack healthy, jira is omitted
and slack's entry appears. -/
theorem C3_raise_isolation_witness :
    "jira" ∉ (collect_data mixedExts).map Prod.fst ∧
    ("slack", Value.str "ok") ∈ collect_data mixedExts := by
  have h := C3_raise_isolation mixedExts "jira" (by
    intro ext hmem m hm
    rcases List.mem_cons.mp hmem with h1 | h1
    · have hext : ext = raisingExt := congrArg Prod.snd h1
      subst hext
      have hm2 : some raisingModule = some m := hm
      injection hm2 with h2
      subst h2
      exact ⟨"boom", rfl⟩
    · have : ("jira" : String) = "slack" :=
        congrArg Prod.fst (List.mem_singleton.mp h1)
      exact absurd this (by decide))
  refine ⟨h.1, ?_⟩
  exact h.2 "slack" healthyExt healthyModule (Value.str "ok")
    (List.mem_cons_of_mem _ (List.mem_singleton.mpr rfl)) rfl rfl rfl rfl

/-- C3 counterexample to the claim as stated: a connector whose collect
"fails" by returning an error marker (the uninitialized github
connector) is not omitted — its error-marker dict appears in the
CollectionResult. -/
theorem C3_counterexample :
    uninitGithubModule.collect =
      some (Except.ok (Value.dict [("error",
        Value.str "GitHub extension not properly initialized")])) ∧
    collect_data [("github", uninitGithubExt)] =
      [("github", Value.dict [("error",
        Value.str "GitHub extension not properly initialized")])] ∧
    "github" ∈ (collect_data [("github", uninitGithubExt)]).map Prod.fst :=
  ⟨rfl, rfl, by decide⟩

/-- C4: when both a built-in and a user-supplied implementation file
exist for an enabled connector, the loader activates the built-in one
(the entry recorded is the one loaded from the built-in path, whatever
the user file holds), and when neither file exists the connector is
absent from the loaded set. -/
theorem C4_builtin_precedence (fs : FS) (o : LoadOracle)
    (cfgs : List (String × PyDict)) (name : String) (cfg : PyDict)
    (hmem : (name, cfg) ∈ cfgs) (hnodup : (cfgs.map Prod.fst).Nodup)
    (hen : (ext_of name cfg).enabled.truthy = true) :
    (fs.builtinExists name = true →
      ((name, (_load_extension_module o (ext_of name cfg)
          (LoadPath.builtin name)).fst) ∈ (load_extensions fs o cfgs).fst ∧
        ∀ ext, (name, ext) ∈ (load_extensions fs o cfgs).fst →
          ext = (_load_extension_module o (ext_of name cfg)
            (LoadPath.builtin name)).fst)) ∧
    (fs.builtinExists name = false → fs.userExists name = false →
      name ∉ ((load_extensions fs o cfgs).fst).map Prod.fst) := by
  constructor
  · intro hb
    have hentry : load_entry fs o name cfg =
        some (_load_extension_module o (ext_of name cfg)
          (LoadPath.builtin name)).fst := by
      simp [load_entry, hen, hb]
    refine ⟨mem_load_extensions_iff.mpr ⟨cfg, hmem, hentry⟩, ?_⟩
    intro ext hext
    obtain ⟨cfg2, hc2, hload⟩ := mem_load_extensions_iff.mp hext
    have heq : cfg2 = cfg := keyval_unique hnodup hc2 hmem
    subst heq
    rw [hentry] at hload
    injection hload with h
    exact h.symm
  · intro hb hu hin
    obtain ⟨⟨n, ext⟩, hmem2, heq⟩ := List.mem_map.mp hin
    obtain rfl : n = name := heq
    obtain ⟨cfg2, hc2, hload⟩ := mem_load_extensions_iff.mp hmem2
    have heq2 : cfg2 = cfg := keyval_unique hnodup hc2 hmem
    subst heq2
    simp [load_entry, hen, hb, hu] at hload

/-- C4 witness: with distinguishable built-in and user modules and both
files existing, the recorded entry is the one built from the built-in
path. -/
theorem C4_builtin_precedence_witness :
    ("github", (_load_extension_module splitOracle (ext_of "github" [])
        (LoadPath.builtin "github")).fst)
      ∈ (load_extensions fsBoth splitOracle [("github", [])]).fst :=
  ((C4_builtin_precedence fsBoth splitOracle [("github", [])] "github" []
    (List.mem_singleton.mpr rfl) (by simp) rfl).1 rfl).1

/-- C5: a connector whose spec has enabled = false never appears in the
loaded extension set nor as a key of the CollectionResult, regardless of
which implementation files exist. -/
theorem C5_disabled_absent (fs : FS) (o : LoadOracle)
    (cfgs : List (String × PyDict)) (name : String) (cfg : PyDict)
    (hmem : (name, cfg) ∈ cfgs) (hnodup : (cfgs.map Prod.fst).Nodup)
    (hdis : (ext_of name cfg).enabled.truthy = false) :
    name ∉ ((load_extensions fs o cfgs).fst).map Prod.fst ∧
    name ∉ (collect_data (load_extensions fs o cfgs).fst).map Prod.fst := by
  have hkey : name ∉ ((load_extensions fs o cfgs).fst).map Prod.fst := by
    intro hin
    obtain ⟨⟨n, ext⟩, hmem2, heq⟩ := List.mem_map.mp hin
    obtain rfl : n = name := heq
    obtain ⟨cfg2, hc2, hload⟩ := mem_load_extensions_iff.mp hmem2
    have heq2 : cfg2 = cfg := keyval_unique hnodup hc2 hmem
    subst heq2
    simp [load_entry, hdis] at hload
  refine ⟨hkey, ?_⟩
  intro hin
  obtain ⟨ext, hmem2, -⟩ := key_mem_collect_iff.mp hin
  exact hkey (List.mem_map.mpr ⟨(name, ext), hmem2, rfl⟩)

/-- C5 witness: a disabled github connector, with implementation files
present everywhere, appears neither in the loaded set nor in the
CollectionResult. -/
theorem C5_disabled_absent_witness :
    "github" ∉ ((load_extensions fsBoth okLoadOracle
      [("github", [("enabled", Value.bool false)])]).fst).map Prod.fst ∧
    "github" ∉ (collect_data (load_extensions fsBoth okLoadOracle
      [("github", [("enabled", Value.bool false)])]).fst).map Prod.fst :=
  C5_disabled_absent fsBoth okLoadOracle
    [("github", [("enabled", Value.bool false)])] "github"
    [("enabled", Value.bool false)] (List.mem_singleton.mpr rfl) (by simp) rfl

/-- C6: a failure while loading or initializing one connector's module
is caught inside the loader — the loader returns with the module unset
and a logged load error carrying the connector's name — and the entries
recorded for every other connector are exactly the same as they would be
under any oracle agreeing outside the failing connector's paths. -/
theorem C6_load_failure_isolated (fs : FS) (o o2 : LoadOracle)
    (cfgs : List (String × PyDict)) (c : String)
    (hagree : ∀ p v, p.pathName ≠ c → o p v = o2 p v) :
    (∀ n ext, n ≠ c →
      ((n, ext) ∈ (load_extensions fs o cfgs).fst ↔
        (n, ext) ∈ (load_extensions fs o2 cfgs).fst)) ∧
    (∀ ext p e, o p ext.config = Except.error e →
      _load_extension_module o ext p = (ext, [LogEvent.loadError ext.name e])) := by
  have hcong : ∀ n cfg, n ≠ c →
      load_entry fs o n cfg = load_entry fs o2 n cfg := by
    intro n cfg hn
    have hb := hagree (LoadPath.builtin n) (ext_of n cfg).config hn
    have hu := hagree (LoadPath.user n) (ext_of n cfg).config hn
    simp [load_entry, _load_extension_module, hb, hu]
  constructor
  · intro n ext hn
    rw [mem_load_extensions_iff, mem_load_extensions_iff]
    constructor
    · rintro ⟨cfg, h1, h2⟩
      exact ⟨cfg, h1, by rw [← hcong n cfg hn]; exact h2⟩
    · rintro ⟨cfg, h1, h2⟩
      exact ⟨cfg, h1, by rw [hcong n cfg hn]; exact h2⟩
  · intro ext p e h
    simp [_load_extension_module, h]

/-- C6 witness: the jira load raises, yet slack's recorded entry is the
same as under the repaired oracle, and the jira failure is converted to
a logged load error carrying the name. -/
theorem C6_load_failure_isolated_witness :
    (("slack", (_load_extension_module failJiraOracle (ext_of "slack" [])
        (LoadPath.builtin "slack")).fst)
      ∈ (load_extensions fsBuiltinOnly failJiraOracle
          [("jira", []), ("slack", [])]).fst ↔
     ("slack", (_load_extension_module failJiraOracle (ext_of "slack" [])
        (LoadPath.builtin "slack")).fst)
      ∈ (load_extensions fsBuiltinOnly fixJiraOracle
          [("jira", []), ("slack", [])]).fst) ∧
    _load_extension_module failJiraOracle (ext_of "jira" [])
        (LoadPath.builtin "jira") =
      (ext_of "jira" [], [LogEvent.loadError (ext_of "jira" []).name "boom"]) := by
  have h := C6_load_failure_isolated fsBuiltinOnly failJiraOracle fixJiraOracle
    [("jira", []), ("slack", [])] "jira"
    (by
      intro p v hp
      have hb : (p.pathName == "jira") = false := beq_eq_false_iff_ne.mpr hp
      simp [fixJiraOracle, hb])
  exact ⟨h.1 "slack" _ (by decide),
    h.2 (ext_of "jira" []) (LoadPath.builtin "jira") "boom" rfl⟩

/-- C7: on a run whose remote backend (claude or openai) has no API
credential configured, the backend call fails with the auth error and
the pipeline's final output is exactly that error — no summary text. -/
theorem C7_missing_credential_auth_error (fs : FS) (lo : LoadOracle)
    (o : Oracles) (cfg : AIConfig) (cfgs : List (String × PyDict))
    (hdata : collect_data (load_extensions fs lo cfgs).fst ≠ [])
    (hkey : cfg.api_key = none ∨ cfg.api_key = some "") :
    (cfg.provider = "claude" →
      DevAssist.run fs lo o cfg cfgs = "Error: Claude API key not configured") ∧
    (cfg.provider = "openai" →
      DevAssist.run fs lo o cfg cfgs = "Error: OpenAI API key not configured") := by
  have hne : (collect_data (load_extensions fs lo cfgs).fst).isEmpty = false := by
    cases hcd : collect_data (load_extensions fs lo cfgs).fst with
    | nil => exact absurd hcd hdata
    | cons a l => rfl
  have hrun : ∀ s : String, cfg.provider = s →
      DevAssist.run fs lo o cfg cfgs =
        run_backend (select_backend s) cfg o
          (_format_prompt o.jsonDumps summary_prompt
            (some (collect_data (load_extensions fs lo cfgs).fst))) := by
    intro s hs
    show process_data cfg o
      (collect_data (load_extensions fs lo cfgs).fst) = _
    unfold process_data
    rw [if_neg (by rw [hne]; exact Bool.false_ne_true)]
    rw [query_ai_eq_run_backend, hs]
  constructor
  · intro hp
    rw [hrun "claude" hp]
    exact _query_claude_no_key cfg o _ hkey
  · intro hp
    rw [hrun "openai" hp]
    exact _query_openai_no_key cfg o _ hkey

/-- C7 witness: a run with a loaded, collecting github connector and a
Claude backend with no API key ends in the auth error. -/
theorem C7_missing_credential_auth_error_witness :
    DevAssist.run fsBoth okLoadOracle oraclesStd claudeNoKeyCfg
      [("github", [])] = "Error: Claude API key not configured" :=
  (C7_missing_credential_auth_error fsBoth okLoadOracle oraclesStd
    claudeNoKeyCfg [("github", [])]
    (List.cons_ne_nil _ _) (Or.inl rfl)).1 rfl

/-- C8: backend selection is a pure function of the provider string of
the AIConfig — the query dispatches to `select_backend cfg.provider` —
and no runtime fallback occurs: two oracle environments agreeing on the
selected backend (and on prompt rendering) produce identical outputs,
whatever the other backends would answer and even when the selected
backend fails. -/
theorem C8_selection_pure_no_fallback (cfg : AIConfig) (o o2 : Oracles)
    (prompt : String) (context : Option PyDict)
    (hdump : o.jsonDumps = o2.jsonDumps)
    (hagree : agree_on (select_backend cfg.provider) o o2) :
    query_ai cfg o prompt context =
      run_backend (select_backend cfg.provider) cfg o
        (_format_prompt o.jsonDumps prompt context) ∧
    query_ai cfg o prompt context = query_ai cfg o2 prompt context := by
  refine ⟨query_ai_eq_run_backend cfg o prompt context, ?_⟩
  rw [query_ai_eq_run_backend cfg o prompt context,
    query_ai_eq_run_backend cfg o2 prompt context, hdump]
  cases hsel : select_backend cfg.provider with
  | localModel =>
    rw [hsel] at hagree
    obtain ⟨h1, h2⟩ := hagree
    simp [run_backend, _query_local_llama, h1, h2]
  | claude =>
    rw [hsel] at hagree
    unfold run_backend _query_claude
    rw [hagree]
  | openai =>
    rw [hsel] at hagree
    unfold run_backend _query_openai
    rw [hagree]
  | unknown => rfl

/-- C8 witness: with a Claude backend whose API call fails with a
transport error, two environments differing only in the unselected
backends produce the same output — no fallback is consulted. -/
theorem C8_selection_pure_no_fallback_witness :
    (query_ai claudeKeyCfg oraclesA "p" none =
      run_backend (select_backend claudeKeyCfg.provider) claudeKeyCfg oraclesA
        (_format_prompt oraclesA.jsonDumps "p" none)) ∧
    query_ai claudeKeyCfg oraclesA "p" none =
      query_ai claudeKeyCfg oraclesB "p" none :=
  C8_selection_pure_no_fallback claudeKeyCfg oraclesA oraclesB "p" none rfl rfl

/-- C9 (amended): registering a connector name not yet present inserts
the fixed spec `\x7b"enabled": True, "config": \x7b\x7d\x7d`, and
retrieving that name yields exactly that spec, whose parse recovers the
triple (name, True, empty config) — read-after-write consistency.  A
later registration under the same name does not overwrite: the `not in`
guard makes it a no-op, preserving the earlier registration. -/
theorem C9_registry_roundtrip (r : Registry) (name : String)
    (hfresh : r.any (fun p => p.fst == name) = false) :
    retrieve (register r name) name =
      some [("enabled", Value.bool true), ("config", Value.dict [])] ∧
    (ext_of name [("enabled", Value.bool true),
      ("config", Value.dict [])]).name = Value.str name ∧
    (ext_of name [("enabled", Value.bool true),
      ("config", Value.dict [])]).enabled = Value.bool true ∧
    (ext_of name [("enabled", Value.bool true),
      ("config", Value.dict [])]).config = Value.dict [] ∧
    register (register r name) name = register r name := by
  have hneg : ¬(r.any (fun p => p.fst == name) = true) := by
    rw [hfresh]
    exact Bool.false_ne_true
  have hreg : register r name =
      listSet r name [("enabled", Value.bool true),
        ("config", Value.dict [])] := by
    unfold register
    rw [if_neg hneg]
  refine ⟨?_, rfl, rfl, rfl, ?_⟩
  · rw [hreg]
    exact retrieve_listSet r name _
  · conv_lhs => rw [register, hreg]
    rw [if_pos (any_listSet r name _)]
    rw [hreg]

/-- C9 witness: registering github on the empty registry and reading it
back. -/
theorem C9_registry_roundtrip_witness :
    retrieve (register [] "github") "github" =
      some [("enabled", Value.bool true), ("config", Value.dict [])] ∧
    (ext_of "github" [("enabled", Value.bool true),
      ("config", Value.dict [])]).name = Value.str "github" ∧
    (ext_of "github" [("enabled", Value.bool true),
      ("config", Value.dict [])]).enabled = Value.bool true ∧
    (ext_of "github" [("enabled", Value.bool true),
      ("config", Value.dict [])]).config = Value.dict [] ∧
    register (register [] "github") "github" = register [] "github" :=
  C9_registry_roundtrip [] "github" rfl

/-- C9 counterexample to the claim as stated: github is already
registered with a custom spec; a later registration of the same name is
a no-op (the `not in` guard of src/nau.py line 505), so the retrieved
spec is still the earlier one — the later registration does not
overwrite it. -/
theorem C9_counterexample :
    register presetRegistry "github" = presetRegistry ∧
    retrieve (register presetRegistry "github") "github" =
      some [("enabled", Value.bool false),
        ("config", Value.dict [("token", Value.str "t")])] :=
  ⟨rfl, rfl⟩

/-- C10: prompt formatting is the identity on the task prompt when the
context is `None` or the empty mapping, and with a non-empty context it
wraps the prompt in the Context/Task/Response frame with one
`=== name ===` section per context key. -/
theorem C10_format_prompt_shape (dumps : Value → String) (prompt : String)
    (k : String) (v : Value) (rest : PyDict) :
    _format_prompt dumps prompt none = prompt ∧
    _format_prompt dumps prompt (some []) = prompt ∧
    _format_prompt dumps prompt (some ((k, v) :: rest)) =
      ("Context:\n" ++
          String.join (((k, v) :: rest).map fun p =>
            "=== " ++ p.fst ++ " ===\n" ++ dumps p.snd ++ "\n\n")) ++
        "\nTask: " ++ prompt ++ "\n\nResponse:" :=
  ⟨rfl, rfl, rfl⟩

end Nau
